import Mathlib

/-!
# Verification of the go-sshd session and forwarding multiplexer

Shallow embedding of `server/server.go` from the go-sshd repository.

Modelling conventions:

* Go byte strings (request payloads, channel extra-data, wire strings) are
  `List Nat` (one entry per byte).
* Every observable action of a handler (replies, channel rejections,
  bind/dial/spawn attempts, closes, outgoing requests, log lines, Go runtime
  panics) is recorded as an `Effect`; a handler produces the list of effects
  in program order.  A whole-process Go panic (out-of-range index or slice,
  method call on a nil interface) is recorded as the terminal effect
  `Effect.goPanic`.
* External collaborators (the OS socket layer, `os/exec` pipes and process
  runs, `mattn/go-shellwords`, the pty allocator, the sftp package) are an
  oracle record `Env`; their results are inputs to the handlers, exactly at
  the call sites where `server.go` consults them.
* `req.Reply(ok, nil)` in `golang.org/x/crypto/ssh` is a no-op when the
  request has `WantReply == false`; `replyIf` models this.
* Concurrency: goroutines spawned by a handler are linearised.  For a
  bridge, the only synchronisation-relevant events are the terminations of
  the two copy directions; a `List CopyDir` schedule gives their order and
  the bridge semantics replays the finalizer each goroutine runs at its
  termination (`sync.Once`-guarded for the direct handlers, unguarded for
  the reverse forwarded-channel goroutines, exactly as in the source).
-/

/-- Big-endian 32-bit read, as `encoding/binary.BigEndian.Uint32`:
panics (returns `none`) when fewer than 4 bytes are available. -/
def readU32 : List Nat → Option (Nat × List Nat)
  | a :: b :: c :: d :: rest => some (((a * 256 + b) * 256 + c) * 256 + d, rest)
  | _ => none

/-- SSH wire string: 32-bit big-endian length followed by that many bytes. -/
def readSshString (bs : List Nat) : Option (List Nat × List Nat) :=
  match readU32 bs with
  | none => none
  | some (n, rest) =>
    if n ≤ rest.length then some (rest.take n, rest.drop n) else none

/-- Big-endian 32-bit encoding of a `Nat` (as `ssh.Marshal` writes a uint32). -/
def u32be (n : Nat) : List Nat :=
  [n / 16777216 % 256, n / 65536 % 256, n / 256 % 256, n % 256]

/-- Go conversion `uint32(i)` of an `int`: two's complement reduction mod 2^32. -/
def uint32OfInt (i : Int) : Nat :=
  (i % 4294967296).toNat

/-- `ssh.Unmarshal` into `struct { Command string }` (exec request payload);
the unmarshaller consumes the buffer exactly. -/
def parseExecMsg (p : List Nat) : Option (List Nat) :=
  match readSshString p with
  | none => none
  | some (cmd, rest) => if rest = [] then some cmd else none

/-- `ssh.Unmarshal` into `struct { Addr string; Port uint32 }`
(tcpip-forward and cancel-tcpip-forward payloads). -/
def parseTcpipForwardMsg (p : List Nat) : Option (List Nat × Nat) :=
  match readSshString p with
  | none => none
  | some (addr, rest) =>
    match readU32 rest with
    | none => none
    | some (port, rest2) => if rest2 = [] then some (addr, port) else none

/-- `ssh.Unmarshal` into the direct-tcpip extra-data
`{ RemoteAddr string; RemotePort uint32; SourceAddr string; SourcePort uint32 }`. -/
def parseDirectTcpipMsg (p : List Nat) : Option (List Nat × Nat × List Nat × Nat) :=
  match readSshString p with
  | none => none
  | some (ra, r1) =>
    match readU32 r1 with
    | none => none
    | some (rp, r2) =>
      match readSshString r2 with
      | none => none
      | some (sa, r3) =>
        match readU32 r3 with
        | none => none
        | some (sp, r4) => if r4 = [] then some (ra, rp, sa, sp) else none

/-- `ssh.Unmarshal` into the direct-streamlocal extra-data
`{ SocketPath string; Reserved0 string; Reserved1 uint32 }`. -/
def parseDirectStreamlocalMsg (p : List Nat) : Option (List Nat) :=
  match readSshString p with
  | none => none
  | some (path, r1) =>
    match readSshString r1 with
    | none => none
    | some (_, r2) =>
      match readU32 r2 with
      | none => none
      | some (_, r3) => if r3 = [] then some path else none

/-- `ssh.Unmarshal` into `struct { SocketPath string }`
(streamlocal-forward and cancel-streamlocal-forward payloads). -/
def parseStreamlocalForwardMsg (p : List Nat) : Option (List Nat) :=
  match readSshString p with
  | none => none
  | some (path, rest) => if rest = [] then some path else none

/-- `parseDims` of `server.go`: two big-endian uint32 reads; the Go code
panics (`none`) when the buffer holds fewer than 8 bytes. -/
def parseDims (b : List Nat) : Option (Nat × Nat) :=
  match readU32 b with
  | none => none
  | some (w, rest) =>
    match readU32 rest with
    | none => none
    | some (h, _) => some (w, h)

/-- The width/height extraction done inline by the `pty-req` arm:
`termLen := req.Payload[3]` (panics when the payload is shorter than 4),
then `parseDims(req.Payload[termLen+4:])` (the slice panics when
`termLen+4` exceeds the length). -/
def ptyReqDims (p : List Nat) : Option (Nat × Nat) :=
  if 4 ≤ p.length then
    let termLen := p.getD 3 0
    if termLen + 4 ≤ p.length then parseDims (p.drop (termLen + 4)) else none
  else none

/-- `strconv.Itoa` as ASCII bytes. -/
def itoaBytes (n : Nat) : List Nat :=
  (Nat.toDigits 10 n).map Char.toNat

/-- `net.JoinHostPort`: brackets the host when it contains a colon. -/
def joinHostPort (host : List Nat) (port : Nat) : List Nat :=
  if 58 ∈ host then 91 :: host ++ [93, 58] ++ itoaBytes port
  else host ++ [58] ++ itoaBytes port

/-- The bytes of the string `"sftp"`. -/
def sftpBytes : List Nat := [115, 102, 116, 112]

/-- Channel-open rejection codes used by `server.go`
(`ssh.Prohibited`, `ssh.UnknownChannelType`). -/
inductive RejectCode where
  | prohibited
  | unknownChannelType
  deriving DecidableEq

/-- Observable actions of the handlers, in program order. -/
inductive Effect where
  | rejectChannel (code : RejectCode) (reason : String)
  | acceptChannel
  | reply (ok : Bool)
  | bind (network : String) (address : List Nat)
  | dial (network : String) (address : List Nat)
  | spawn (argv : List (List Nat))
  | closeListener (ln : Nat)
  | closeChannel
  | closeConn
  | sendRequest (name : String) (wantReply : Bool) (payload : List Nat)
  | openChannel (chanType : String) (boundAddr : List Nat) (boundPort : Nat)
      (origin : Option (List Nat × Nat))
  | discardRequests
  | spawnWatchdog (ln : Nat)
  | sftpServe
  | setWinsize (w : Nat) (h : Nat)
  | log (msg : String)
  | goPanic
  deriving DecidableEq

/-- `req.Reply(ok, nil)`: sends a reply only when the request wants one. -/
def replyIf (wantReply : Bool) (ok : Bool) : List Effect :=
  if wantReply then [Effect.reply ok] else []

/-- Outcome of `cmd.Run()` in `os/exec`: success; an `*exec.ExitError`
carrying `ExitCode()`; or any other error (start failure, I/O error) from
which the process did not report a code. -/
inductive RunOutcome where
  | success
  | exitError (code : Int)
  | startError
  deriving DecidableEq

/-- Whether `cmd.Run()` got as far as starting the process. -/
def runSpawns : RunOutcome → Bool
  | RunOutcome.startError => false
  | _ => true

/-- The exit-code derivation of `handleExecRequest`: `exitCode` starts at 0,
is overwritten with `ExitCode()` only for an `*exec.ExitError`, and stays 0
for any other error or for success. -/
def exitCodeOf : RunOutcome → Int
  | RunOutcome.success => 0
  | RunOutcome.exitError c => c
  | RunOutcome.startError => 0

/-- Which copy direction of a bridge terminates (EOF or error). -/
inductive CopyDir where
  | backToChan
  | chanToBack
  deriving DecidableEq

/-- A backend connection accepted by a forward accept loop: the originator
host/port obtained by `net.SplitHostPort` (`none` models its failure),
whether `sshConn.OpenChannel` succeeds for it, and the schedule of its
bridge's copy terminations. -/
structure ConnInfo where
  origin : Option (List Nat × Nat)
  openOk : Bool
  sched : List CopyDir
  deriving DecidableEq

/-- Oracle for all external collaborators consulted by the handlers. -/
structure Env where
  /-- `newChannel.Accept()` succeeds. -/
  acceptOk : Bool
  /-- `net.Listen network address`: `some` listener id on success. -/
  listen : String → List Nat → Option Nat
  /-- `net.Dial network address` succeeds. -/
  dialOk : String → List Nat → Bool
  /-- `shellwords.Parse` (external library `mattn/go-shellwords`):
  `none` is a parse error, `some argv` the split words. -/
  shellwords : List Nat → Option (List (List Nat))
  /-- `cmd.StdinPipe()` succeeds. -/
  stdinPipeOk : Bool
  /-- `cmd.StdoutPipe()` succeeds. -/
  stdoutPipeOk : Bool
  /-- `cmd.StderrPipe()` succeeds. -/
  stderrPipeOk : Bool
  /-- Outcome of `cmd.Run()`. -/
  run : RunOutcome
  /-- `s.createPty`: `some` pty file handle on success (the repository's
  unix implementation is external to the embedded file; the windows stub
  always fails). -/
  createPty : Option Nat
  /-- `sftp.NewServer` succeeds. -/
  newSftpOk : Bool
  /-- Whether `Close()` on the given listener returns an error. -/
  closeErr : Nat → Bool
  /-- Copy-termination schedule of the bridge run by a direct handler. -/
  sched : List CopyDir
  /-- Connections delivered by a forward listener's accept loop before
  `Accept` fails. -/
  conns : List ConnInfo

/-- The permission set of `Server` in `server.go`. -/
structure Server where
  AllowTcpipForward : Bool
  AllowDirectTcpip : Bool
  AllowExecute : Bool
  AllowSftp : Bool
  AllowStreamlocalForward : Bool
  AllowDirectStreamlocal : Bool
  deriving DecidableEq

/-- A request on a session channel. -/
structure SessionReq where
  reqType : String
  wantReply : Bool
  payload : List Nat
  deriving DecidableEq

/-- A global (connection-level) request. -/
structure GlobalReq where
  reqType : String
  wantReply : Bool
  payload : List Nat
  deriving DecidableEq

/-- Control outcome of one session-request arm: continue the request loop,
return from `handleSession`, or a Go panic. -/
inductive Ctl where
  | cont
  | ret
  | panicked
  deriving DecidableEq

/-- `handleExecRequest` of `server.go` (the permission check lives in the
caller).  Trace order follows the source: parse, shellwords, pipes, the
reply, `cmd.Run`, the `exit-status` request, `connection.Close()`.
An empty argv makes `cmdSlice[0]` panic. -/
def handleExecRequest (env : Env) (r : SessionReq) : List Effect × Ctl :=
  match parseExecMsg r.payload with
  | none => ([Effect.log "failed to parse message in exec"], Ctl.cont)
  | some cmd =>
    match env.shellwords cmd with
    | none => ([], Ctl.cont)
    | some [] => ([Effect.goPanic], Ctl.panicked)
    | some (c :: args) =>
      if env.stdinPipeOk = false then ([], Ctl.cont)
      else if env.stdoutPipeOk = false then ([], Ctl.cont)
      else if env.stderrPipeOk = false then ([], Ctl.cont)
      else
        (replyIf r.wantReply true
          ++ (if runSpawns env.run then [Effect.spawn (c :: args)] else [])
          ++ [Effect.sendRequest "exit-status" false
                (u32be (uint32OfInt (exitCodeOf env.run))),
              Effect.closeChannel],
         Ctl.cont)

/-- `handleSessionSubSystem` of `server.go`: `req.Payload[4:]` panics on a
payload shorter than 4 bytes; the name comparison ignores the length
prefix; the sftp permission is checked only after the name matches. -/
def handleSessionSubSystem (s : Server) (env : Env) (r : SessionReq) :
    List Effect × Ctl :=
  if r.payload.length < 4 then ([Effect.goPanic], Ctl.panicked)
  else if r.payload.drop 4 ≠ sftpBytes then (replyIf r.wantReply false, Ctl.cont)
  else if s.AllowSftp = false then
    ([Effect.log "sftp not allowed"] ++ replyIf r.wantReply false, Ctl.cont)
  else if env.newSftpOk = false then
    (replyIf r.wantReply true ++ [Effect.log "failed to create sftp server"], Ctl.cont)
  else (replyIf r.wantReply true ++ [Effect.sftpServe], Ctl.cont)

/-- One arm of the `for req := range requests` switch in `handleSession`.
State: the optional pty handle `shf`. -/
def sessionStep (s : Server) (env : Env) (shf : Option Nat) (r : SessionReq) :
    List Effect × Option Nat × Ctl :=
  if r.reqType = "exec" then
    if s.AllowExecute = false then
      ([Effect.log "execution not allowed (exec)"] ++ replyIf r.wantReply false,
       shf, Ctl.cont)
    else
      let (es, c) := handleExecRequest env r
      (es, shf, c)
  else if r.reqType = "shell" then
    if r.payload = [] then (replyIf r.wantReply true, shf, Ctl.cont)
    else ([], shf, Ctl.cont)
  else if r.reqType = "pty-req" then
    if s.AllowExecute = false then
      ([Effect.log "execution not allowed (pty-req)"] ++ replyIf r.wantReply false,
       shf, Ctl.cont)
    else
      match ptyReqDims r.payload with
      | none => ([Effect.goPanic], shf, Ctl.panicked)
      | some (w, h) =>
        match env.createPty with
        | none => (replyIf r.wantReply false, shf, Ctl.ret)
        | some f =>
          ([Effect.setWinsize w h] ++ replyIf r.wantReply true, some f, Ctl.cont)
  else if r.reqType = "window-change" then
    match parseDims r.payload with
    | none => ([Effect.goPanic], shf, Ctl.panicked)
    | some (w, h) =>
      (match shf with
       | some _ => [Effect.setWinsize w h]
       | none => [], shf, Ctl.cont)
  else if r.reqType = "subsystem" then
    let (es, c) := handleSessionSubSystem s env r
    (es, shf, c)
  else ([Effect.log "unsupported request"], shf, Ctl.cont)

/-- The request loop of `handleSession`: sequential processing, stopping on
a `return` or a panic. -/
def sessionLoop (s : Server) (env : Env) (shf : Option Nat) :
    List SessionReq → List Effect
  | [] => []
  | r :: rest =>
    match sessionStep s env shf r with
    | (es, shf2, Ctl.cont) => es ++ sessionLoop s env shf2 rest
    | (es, _, _) => es

/-- `handleSession`: accept the channel (log and return on failure), then
drive the request loop. -/
def handleSession (s : Server) (env : Env) (reqs : List SessionReq) : List Effect :=
  if env.acceptOk = false then [Effect.log "Could not accept channel"]
  else Effect.acceptChannel :: sessionLoop s env none reqs

/-- A `sync.Once`-guarded bridge finalizer: each copy direction, at its
termination, runs `closeOnce.Do(closer)`.  The boolean is the `done` flag of
the `sync.Once`; the closer body runs only on the first call. -/
def bridgeOnce (closer : List Effect) : List CopyDir → Bool → List Effect
  | [], _ => []
  | _ :: rest, true => bridgeOnce closer rest true
  | _ :: rest, false => closer ++ bridgeOnce closer rest true

/-- The unguarded finalizer of the reverse forwarded-channel goroutines:
each copy direction, at its termination, runs the closer body
unconditionally (there is no `sync.Once` in those goroutines). -/
def bridgeUnguarded (closer : List Effect) : List CopyDir → List Effect
  | [] => []
  | _ :: rest => closer ++ bridgeUnguarded closer rest

/-- The closer of the direct handlers: `channel.Close(); conn.Close()`. -/
def directCloser : List Effect := [Effect.closeChannel, Effect.closeConn]

/-- The close sequence of each reverse forwarded-channel copy goroutine:
`conn.Close(); channel.Close()`. -/
def forwardedCloser : List Effect := [Effect.closeConn, Effect.closeChannel]

/-- `handleDirectTcpip`: parse the extra-data, accept, discard requests,
dial `tcp` to `JoinHostPort(RemoteAddr, RemotePort)`, and on success run the
`sync.Once`-guarded bridge. -/
def handleDirectTcpip (extra : List Nat) (env : Env) : List Effect :=
  match parseDirectTcpipMsg extra with
  | none => [Effect.log "failed to parse direct-tcpip message"]
  | some (ra, rp, _, _) =>
    if env.acceptOk = false then [Effect.log "failed to accept"]
    else
      let raddr := joinHostPort ra rp
      [Effect.acceptChannel, Effect.discardRequests, Effect.dial "tcp" raddr] ++
      (if env.dialOk "tcp" raddr = false then
        [Effect.log "failed to dial", Effect.closeChannel]
      else bridgeOnce directCloser env.sched false)

/-- `handleDirectStreamlocal`: as `handleDirectTcpip` but dialling the unix
socket path from the extra-data. -/
def handleDirectStreamlocal (extra : List Nat) (env : Env) : List Effect :=
  match parseDirectStreamlocalMsg extra with
  | none => [Effect.log "failed to parse direct-streamlocal message"]
  | some path =>
    if env.acceptOk = false then [Effect.log "failed to accept"]
    else
      [Effect.acceptChannel, Effect.discardRequests, Effect.dial "unix" path] ++
      (if env.dialOk "unix" path = false then
        [Effect.log "failed to dial", Effect.closeChannel]
      else bridgeOnce directCloser env.sched false)

/-- `handleChannel`: dispatch on the channel type with permission gates for
the two direct-forwarding types; unknown types are rejected with
`ssh.UnknownChannelType`. -/
def handleChannel (s : Server) (ct : String) (extra : List Nat)
    (reqs : List SessionReq) (env : Env) : List Effect :=
  if ct = "session" then handleSession s env reqs
  else if ct = "direct-tcpip" then
    if s.AllowDirectTcpip = false then
      [Effect.rejectChannel RejectCode.prohibited "direct-tcpip not allowed"]
    else handleDirectTcpip extra env
  else if ct = "direct-streamlocal@openssh.com" then
    if s.AllowDirectStreamlocal = false then
      [Effect.rejectChannel RejectCode.prohibited
        "direct-streamlocal (Unix domain socket) not allowed"]
    else handleDirectStreamlocal extra env
  else
    [Effect.rejectChannel RejectCode.unknownChannelType
      ("unknown channel type: " ++ ct)]

/-- The forward registry: bind-address bytes to listener id. -/
abbrev Registry : Type := List (List Nat × Nat)

/-- Lookup in the registry. -/
def regLookup (reg : Registry) (k : List Nat) : Option Nat :=
  match reg with
  | [] => none
  | (k2, v) :: rest => if k2 = k then some v else regLookup rest k

/-- Modelled from the spec: `sync_generics.Map.Store` (package
`sync_generics` of this repository, not included under `src/`) wraps
`sync.Map.Store` — insert or overwrite the entry for the key; nothing else
happens to a displaced value (spec §4.6 and the §9 design note: the store
"silently overwrites, orphaning the prior listener"). -/
def regStore (reg : Registry) (k : List Nat) (v : Nat) : Registry :=
  (k, v) :: reg.filter (fun e => e.1 ≠ k)

/-- Modelled from the spec: `sync_generics.Map.LoadAndDelete` wraps
`sync.Map.LoadAndDelete` — atomically remove and return the entry for the
key together with a `loaded` flag (spec §4.6 `take`). -/
def regLoadAndDelete (reg : Registry) (k : List Nat) : Option Nat × Registry :=
  (regLookup reg k, reg.filter (fun e => e.1 ≠ k))

/-- The body run for one connection accepted by the tcpip-forward accept
loop: log a `SplitHostPort` failure, open the reverse `forwarded-tcpip`
channel (on failure reply false to the original global request and close
the connection), discard its requests, and run the two unguarded copy
goroutines. -/
def tcpipConnTask (bAddr : List Nat) (bPort : Nat) (wantReply : Bool)
    (c : ConnInfo) : List Effect :=
  (match c.origin with
   | none => [Effect.log "failed to split remote address"]
   | some _ => []) ++
  [Effect.openChannel "forwarded-tcpip" bAddr bPort c.origin] ++
  (if c.openOk = false then replyIf wantReply false ++ [Effect.closeConn]
   else [Effect.discardRequests] ++ bridgeUnguarded forwardedCloser c.sched)

/-- The accept loop of `handleTcpipForward`: serve each connection, then
`Accept` fails and the loop logs and returns. -/
def tcpipAcceptLoop (bAddr : List Nat) (bPort : Nat) (wantReply : Bool) :
    List ConnInfo → List Effect
  | [] => [Effect.log "failed to accept"]
  | c :: rest =>
    tcpipConnTask bAddr bPort wantReply c ++ tcpipAcceptLoop bAddr bPort wantReply rest

/-- `handleTcpipForward`: parse `{Addr, Port}`, listen on
`JoinHostPort(Addr, Port)` (reply false on either failure), store the
listener in the registry, reply true, spawn the connection watchdog, and
run the accept loop. -/
def handleTcpipForward (wantReply : Bool) (payload : List Nat) (env : Env)
    (reg : Registry) : List Effect × Registry :=
  match parseTcpipForwardMsg payload with
  | none => (replyIf wantReply false, reg)
  | some (addr, port) =>
    let address := joinHostPort addr port
    match env.listen "tcp" address with
    | none => ([Effect.bind "tcp" address] ++ replyIf wantReply false, reg)
    | some ln =>
      ([Effect.bind "tcp" address] ++ replyIf wantReply true ++
        [Effect.spawnWatchdog ln] ++ tcpipAcceptLoop addr port wantReply env.conns,
       regStore reg address ln)

/-- The body run for one connection accepted by the streamlocal accept
loop; the reverse channel type is `forwarded-streamlocal@openssh.com`
with payload `{SocketPath, ""}` (no originator extraction). -/
def streamlocalConnTask (path : List Nat) (wantReply : Bool) (c : ConnInfo) :
    List Effect :=
  [Effect.openChannel "forwarded-streamlocal@openssh.com" path 0 none] ++
  (if c.openOk = false then replyIf wantReply false ++ [Effect.closeConn]
   else [Effect.discardRequests] ++ bridgeUnguarded forwardedCloser c.sched)

/-- The accept loop of `handleStreamlocalForward`. -/
def streamlocalAcceptLoop (path : List Nat) (wantReply : Bool) :
    List ConnInfo → List Effect
  | [] => [Effect.log "failed to accept"]
  | c :: rest =>
    streamlocalConnTask path wantReply c ++ streamlocalAcceptLoop path wantReply rest

/-- `handleStreamlocalForward`: parse `{SocketPath}`, listen on the unix
socket, store, reply true, watchdog, accept loop. -/
def handleStreamlocalForward (wantReply : Bool) (payload : List Nat) (env : Env)
    (reg : Registry) : List Effect × Registry :=
  match parseStreamlocalForwardMsg payload with
  | none => (replyIf wantReply false, reg)
  | some path =>
    match env.listen "unix" path with
    | none => ([Effect.bind "unix" path] ++ replyIf wantReply false, reg)
    | some ln =>
      ([Effect.bind "unix" path] ++ replyIf wantReply true ++
        [Effect.spawnWatchdog ln] ++ streamlocalAcceptLoop path wantReply env.conns,
       regStore reg path ln)

/-- `cancelTcpipForward`: parse, `LoadAndDelete`.  When the address is not
registered the source replies false and logs but does NOT return, and then
calls `ln.Close()` on the nil interface value — a Go panic.  When it is
registered, a close error makes it reply false and log, and execution falls
through to the final `req.Reply(true, nil)` either way. -/
def cancelTcpipForward (wantReply : Bool) (payload : List Nat) (env : Env)
    (reg : Registry) : List Effect × Registry :=
  match parseTcpipForwardMsg payload with
  | none => (replyIf wantReply false, reg)
  | some (addr, port) =>
    let address := joinHostPort addr port
    match regLoadAndDelete reg address with
    | (none, reg2) =>
      (replyIf wantReply false ++ [Effect.log "failed to find listener", Effect.goPanic],
       reg2)
    | (some ln, reg2) =>
      if env.closeErr ln then
        ([Effect.closeListener ln] ++ replyIf wantReply false ++
          [Effect.log "failed to close"] ++ replyIf wantReply true, reg2)
      else ([Effect.closeListener ln] ++ replyIf wantReply true, reg2)

/-- `cancelStreamlocalForward`: as `cancelTcpipForward`, except that the
not-registered branch logs, replies false and returns (no panic); the
close-error double reply is the same. -/
def cancelStreamlocalForward (wantReply : Bool) (payload : List Nat) (env : Env)
    (reg : Registry) : List Effect × Registry :=
  match parseStreamlocalForwardMsg payload with
  | none => (replyIf wantReply false, reg)
  | some path =>
    match regLoadAndDelete reg path with
    | (none, reg2) =>
      ([Effect.log "failed to find listener"] ++ replyIf wantReply false, reg2)
    | (some ln, reg2) =>
      if env.closeErr ln then
        ([Effect.closeListener ln] ++ replyIf wantReply false ++
          [Effect.log "failed to close"] ++ replyIf wantReply true, reg2)
      else ([Effect.closeListener ln] ++ replyIf wantReply true, reg2)

/-- One arm of the switch in `HandleGlobalRequests`: the two forward
registrations are permission-gated; the two cancel types are dispatched
unconditionally; anything else is discarded with reply false when a reply
is wanted. -/
def globalRequestStep (s : Server) (env : Env) (reg : Registry) (r : GlobalReq) :
    List Effect × Registry :=
  if r.reqType = "tcpip-forward" then
    if s.AllowTcpipForward = false then
      ([Effect.log "tcpip-forward not allowed"] ++ replyIf r.wantReply false, reg)
    else handleTcpipForward r.wantReply r.payload env reg
  else if r.reqType = "cancel-tcpip-forward" then
    cancelTcpipForward r.wantReply r.payload env reg
  else if r.reqType = "streamlocal-forward@openssh.com" then
    if s.AllowStreamlocalForward = false then
      ([Effect.log "streamlocal-forward not allowed"] ++ replyIf r.wantReply false, reg)
    else handleStreamlocalForward r.wantReply r.payload env reg
  else if r.reqType = "cancel-streamlocal-forward@openssh.com" then
    cancelStreamlocalForward r.wantReply r.payload env reg
  else (replyIf r.wantReply false ++ [Effect.log "request discarded"], reg)

/-- Bind, dial and spawn are the side effects claim C1 forbids on a denied
operation. -/
def isSideEffect : Effect → Bool
  | Effect.bind _ _ => true
  | Effect.dial _ _ => true
  | Effect.spawn _ => true
  | _ => false

/-- A trace with no bind, dial or spawn. -/
def noSideEffect (t : List Effect) : Bool :=
  t.all (fun e => !isSideEffect e)

/-- Number of `closeChannel` effects in a trace. -/
def countCloseChannel : List Effect → Nat
  | [] => 0
  | Effect.closeChannel :: rest => countCloseChannel rest + 1
  | _ :: rest => countCloseChannel rest

/-- The all-permissions server (`go-sshd` default). -/
def serverAll : Server :=
  { AllowTcpipForward := true, AllowDirectTcpip := true, AllowExecute := true,
    AllowSftp := true, AllowStreamlocalForward := true, AllowDirectStreamlocal := true }

/-- The no-permissions server. -/
def serverNone : Server :=
  { AllowTcpipForward := false, AllowDirectTcpip := false, AllowExecute := false,
    AllowSftp := false, AllowStreamlocalForward := false, AllowDirectStreamlocal := false }

/-- An environment in which every external call succeeds; `shellwords`
splits a command into the single word it consists of (the behaviour of
`go-shellwords` on a quote-free, space-free command). -/
def envOk : Env :=
  { acceptOk := true, listen := fun _ _ => some 5, dialOk := fun _ _ => true,
    shellwords := fun c => some [c], stdinPipeOk := true, stdoutPipeOk := true,
    stderrPipeOk := true, run := RunOutcome.success, createPty := some 3,
    newSftpOk := true, closeErr := fun _ => false, sched := [], conns := [] }

/-- Wire payload of an exec request for the one-byte command `"a"`. -/
def execPayloadA : List Nat := [0, 0, 0, 1, 97]

/-- Wire payload `{Addr := "h", Port := 1}` for (cancel-)tcpip-forward. -/
def tfPayload : List Nat := [0, 0, 0, 1, 104, 0, 0, 0, 1]

/-- `JoinHostPort("h", 1) = "h:1"` as bytes. -/
def tfAddress : List Nat := [104, 58, 49]

/-- Wire payload `{SocketPath := "p"}` for (cancel-)streamlocal-forward. -/
def slPayload : List Nat := [0, 0, 0, 1, 112]

/-- direct-tcpip extra-data `{RemoteAddr := "h", RemotePort := 1,
SourceAddr := "", SourcePort := 0}`. -/
def dtExtra : List Nat :=
  [0, 0, 0, 1, 104, 0, 0, 0, 1, 0, 0, 0, 0, 0, 0, 0, 0]

/-- direct-streamlocal extra-data `{SocketPath := "p", Reserved0 := "",
Reserved1 := 0}`. -/
def dslExtra : List Nat := [0, 0, 0, 1, 112, 0, 0, 0, 0, 0, 0, 0, 0]

/-- Subsystem payload whose name bytes are `"sftp"`. -/
def subsysSftp : List Nat := [0, 0, 0, 4, 115, 102, 116, 112]

/-- `envOk` with listener closes failing. -/
def envCloseErr : Env := { envOk with closeErr := fun _ => true }

/-- `envOk` with `cmd.StdinPipe()` failing. -/
def envPipeFail : Env := { envOk with stdinPipeOk := false }

/-- `envOk` with `cmd.Run()` failing before the process starts. -/
def envStartErr : Env := { envOk with run := RunOutcome.startError }

/-- `envOk` with `shellwords.Parse` behaving as `go-shellwords` does on the
empty command: it returns an empty argv (and no error). -/
def envEmptyArgv : Env :=
  { envOk with shellwords := fun c => if c = [] then some [] else none }

/-- `envOk` with `net.Listen` returning listener 8. -/
def envListen8 : Env := { envOk with listen := fun _ _ => some 8 }

/-- `envOk` with a direct-bridge schedule in which both copy directions
terminate. -/
def envSched2 : Env :=
  { envOk with sched := [CopyDir.backToChan, CopyDir.chanToBack] }

/-- A forward-accepted connection whose reverse channel opens and whose two
bridge copy directions both terminate. -/
def connBoth : ConnInfo :=
  { origin := some ([104], 2), openOk := true,
    sched := [CopyDir.backToChan, CopyDir.chanToBack] }

/-- C10: the `cancel-tcpip-forward` and `cancel-streamlocal-forward@openssh.com`
global requests are dispatched to their handlers for every permission set —
in particular when `AllowTcpipForward` / `AllowStreamlocalForward` is
false, as the two closed conjuncts exhibit on a registered bind. -/
theorem cancel_dispatch_ignores_permissions (s : Server) (env : Env)
    (reg : Registry) (wr : Bool) (p : List Nat) :
    globalRequestStep s env reg ⟨"cancel-tcpip-forward", wr, p⟩ =
      cancelTcpipForward wr p env reg ∧
    globalRequestStep s env reg ⟨"cancel-streamlocal-forward@openssh.com", wr, p⟩ =
      cancelStreamlocalForward wr p env reg ∧
    (globalRequestStep serverNone envOk [(tfAddress, 7)]
        ⟨"cancel-tcpip-forward", true, tfPayload⟩).1 =
      [Effect.closeListener 7, Effect.reply true] ∧
    (globalRequestStep serverNone envOk [(slPayload.drop 4, 9)]
        ⟨"cancel-streamlocal-forward@openssh.com", true, slPayload⟩).1 =
      [Effect.closeListener 9, Effect.reply true] := by
  refine ⟨rfl, rfl, by decide, by decide⟩

/-- C9: a `shell` session request with a non-empty payload produces no
reply at all — not even with want-reply set — and the session loop simply
moves on to the next request. -/
theorem shell_nonempty_no_reply (s : Server) (env : Env) (shf : Option Nat)
    (wr : Bool) (p : List Nat) (rest : List SessionReq) (h : p ≠ []) :
    sessionStep s env shf ⟨"shell", wr, p⟩ = ([], shf, Ctl.cont) ∧
    sessionLoop s env shf (⟨"shell", wr, p⟩ :: rest) = sessionLoop s env shf rest := by
  have hstep : sessionStep s env shf ⟨"shell", wr, p⟩ = ([], shf, Ctl.cont) := by
    simp [sessionStep, h]
  exact ⟨hstep, by simp [sessionLoop, hstep]⟩

/-- Witness for C9 at the concrete payload `[1]`. -/
theorem shell_nonempty_no_reply_witness :
    sessionStep serverAll envOk none ⟨"shell", true, [1]⟩ = ([], none, Ctl.cont) ∧
    sessionLoop serverAll envOk none [⟨"shell", true, [1]⟩] =
      sessionLoop serverAll envOk none [] :=
  shell_nonempty_no_reply serverAll envOk none true [1] [] (by decide)

/-- C2 (code bug): a cancel for an unregistered bind replies false but then
falls through (the source lacks a `return`) and calls `Close()` on the nil
listener interface — a Go panic; and for a registered bind whose close
errors, both cancel handlers reply false and then also reply true, so a
close error does change the reply. -/
theorem cancel_absent_panics_and_close_error_double_reply :
    cancelTcpipForward true tfPayload envOk [] =
      ([Effect.reply false, Effect.log "failed to find listener", Effect.goPanic],
       ([] : Registry)) ∧
    (cancelTcpipForward true tfPayload envCloseErr [(tfAddress, 7)]).1 =
      [Effect.closeListener 7, Effect.reply false, Effect.log "failed to close",
       Effect.reply true] ∧
    (cancelStreamlocalForward true slPayload envCloseErr [([112], 9)]).1 =
      [Effect.closeListener 9, Effect.reply false, Effect.log "failed to close",
       Effect.reply true] := by
  decide

/-- C5 (code bug): malformed session payloads are not rejected with a false
reply — `window-change` shorter than 8 bytes, `pty-req` shorter than 4
bytes and `subsystem` shorter than 4 bytes all make the handler panic
(out-of-range index or slice), and the panic aborts the whole request
loop instead of letting later requests proceed. -/
theorem malformed_session_payload_panics :
    sessionStep serverAll envOk none ⟨"window-change", false, []⟩ =
      ([Effect.goPanic], none, Ctl.panicked) ∧
    sessionStep serverAll envOk none ⟨"pty-req", true, [0, 0, 0]⟩ =
      ([Effect.goPanic], none, Ctl.panicked) ∧
    sessionStep serverAll envOk none ⟨"subsystem", true, [0, 0]⟩ =
      ([Effect.goPanic], none, Ctl.panicked) ∧
    sessionLoop serverAll envOk none
      [⟨"window-change", false, []⟩, ⟨"shell", true, []⟩] = [Effect.goPanic] := by
  decide

/-- C6 (code bug): an exec whose command splits to an empty argv (here the
empty command, which `go-shellwords` parses to an empty slice) is not
rejected: `cmdSlice[0]` panics.  No process is spawned, but neither is any
reply sent. -/
theorem exec_empty_argv_panics :
    handleExecRequest envEmptyArgv ⟨"exec", true, [0, 0, 0, 0]⟩ =
      ([Effect.goPanic], Ctl.panicked) ∧
    (∀ a, Effect.spawn a ∉ (handleExecRequest envEmptyArgv ⟨"exec", true, [0, 0, 0, 0]⟩).1) ∧
    (∀ b, Effect.reply b ∉ (handleExecRequest envEmptyArgv ⟨"exec", true, [0, 0, 0, 0]⟩).1) := by
  have h : handleExecRequest envEmptyArgv ⟨"exec", true, [0, 0, 0, 0]⟩ =
      ([Effect.goPanic], Ctl.panicked) := by decide
  refine ⟨h, ?_, ?_⟩ <;> intro x <;> rw [h] <;> simp

/-- C4: for an exec whose process runs, the derived exit code is 0 on
success, the process's reported `ExitCode()` on an `*exec.ExitError`, and 0
when no code is obtainable; an `exit-status` request with the code as its
uint32 payload and want_reply=false is sent on the session channel before
the channel is closed (it immediately precedes `closeChannel` in the
trace). -/
theorem exec_exit_status_emitted (env : Env) (wr : Bool) (p cmd c : List Nat)
    (args : List (List Nat))
    (hp : parseExecMsg p = some cmd) (hw : env.shellwords cmd = some (c :: args))
    (h1 : env.stdinPipeOk = true) (h2 : env.stdoutPipeOk = true)
    (h3 : env.stderrPipeOk = true) :
    handleExecRequest env ⟨"exec", wr, p⟩ =
      (replyIf wr true ++
        (if runSpawns env.run then [Effect.spawn (c :: args)] else []) ++
        [Effect.sendRequest "exit-status" false
          (u32be (uint32OfInt (exitCodeOf env.run))),
         Effect.closeChannel], Ctl.cont) ∧
    exitCodeOf RunOutcome.success = 0 ∧
    (∀ k : Int, exitCodeOf (RunOutcome.exitError k) = k) ∧
    exitCodeOf RunOutcome.startError = 0 := by
  refine ⟨?_, rfl, fun k => rfl, rfl⟩
  simp [handleExecRequest, hp, hw, h1, h2, h3]

/-- Witness for C4: a successful run of the command `"a"` emits
`exit-status`{0} and then closes the channel. -/
theorem exec_exit_status_emitted_witness :
    handleExecRequest envOk ⟨"exec", true, execPayloadA⟩ =
      ([Effect.reply true, Effect.spawn [[97]],
        Effect.sendRequest "exit-status" false [0, 0, 0, 0], Effect.closeChannel],
       Ctl.cont) := by
  have h := exec_exit_status_emitted envOk true execPayloadA [97] [97] []
    (by decide) rfl rfl rfl rfl
  exact h.1.trans (by decide)

/-- C7 counterexample: when creating the stdin pipe fails the handler
returns with an empty trace — in particular the session channel is NOT
closed, contradicting the claim. -/
theorem exec_pipe_failure_no_close_cex :
    handleExecRequest envPipeFail ⟨"exec", true, execPayloadA⟩ =
      (([] : List Effect), Ctl.cont) ∧
    Effect.closeChannel ∉ (handleExecRequest envPipeFail ⟨"exec", true, execPayloadA⟩).1 := by
  refine ⟨by decide, ?_⟩
  intro h
  revert h
  decide

/-- C7 amended: a pipe-creation failure makes the handler return without
any reply and without closing the channel; a spawn failure happens only
after reply true has been sent, is treated as exit code 0, and the channel
is then closed. -/
theorem exec_pipe_spawn_failure_amended (env : Env) (wr : Bool) (p cmd c : List Nat)
    (args : List (List Nat))
    (hp : parseExecMsg p = some cmd) (hw : env.shellwords cmd = some (c :: args)) :
    (env.stdinPipeOk = false → handleExecRequest env ⟨"exec", wr, p⟩ = ([], Ctl.cont)) ∧
    (env.stdoutPipeOk = false → env.stdinPipeOk = true →
      handleExecRequest env ⟨"exec", wr, p⟩ = ([], Ctl.cont)) ∧
    (env.stderrPipeOk = false → env.stdinPipeOk = true → env.stdoutPipeOk = true →
      handleExecRequest env ⟨"exec", wr, p⟩ = ([], Ctl.cont)) ∧
    (env.run = RunOutcome.startError → env.stdinPipeOk = true →
      env.stdoutPipeOk = true → env.stderrPipeOk = true →
      handleExecRequest env ⟨"exec", wr, p⟩ =
        (replyIf wr true ++
          [Effect.sendRequest "exit-status" false
            (u32be (uint32OfInt (exitCodeOf RunOutcome.startError))),
           Effect.closeChannel], Ctl.cont)) := by
  refine ⟨?_, ?_, ?_, ?_⟩ <;> intros <;>
    simp_all [handleExecRequest, hp, hw, runSpawns]

/-- Witness for C7's amended claim: the stdin-pipe-failure case and the
spawn-failure case at the concrete command `"a"`. -/
theorem exec_pipe_spawn_failure_amended_witness :
    handleExecRequest envPipeFail ⟨"exec", true, execPayloadA⟩ = ([], Ctl.cont) ∧
    handleExecRequest envStartErr ⟨"exec", true, execPayloadA⟩ =
      ([Effect.reply true, Effect.sendRequest "exit-status" false [0, 0, 0, 0],
        Effect.closeChannel], Ctl.cont) := by
  have h1 := (exec_pipe_spawn_failure_amended envPipeFail true execPayloadA
    [97] [97] [] (by decide) rfl).1 rfl
  have h2 := (exec_pipe_spawn_failure_amended envStartErr true execPayloadA
    [97] [97] [] (by decide) rfl).2.2.2 rfl rfl rfl rfl
  exact ⟨h1, h2.trans (by decide)⟩

theorem countCloseChannel_append (a b : List Effect) :
    countCloseChannel (a ++ b) = countCloseChannel a + countCloseChannel b := by
  induction a with
  | nil => simp [countCloseChannel]
  | cons e rest ih =>
    cases e <;> simp [countCloseChannel, ih]
    omega

theorem bridgeOnce_done (closer : List Effect) (sched : List CopyDir) :
    bridgeOnce closer sched true = [] := by
  induction sched with
  | nil => rfl
  | cons d rest ih => simp [bridgeOnce, ih]

theorem bridgeOnce_of_ne_nil (closer : List Effect) (sched : List CopyDir)
    (h : sched ≠ []) : bridgeOnce closer sched false = closer := by
  cases sched with
  | nil => exact absurd rfl h
  | cons d rest => simp [bridgeOnce, bridgeOnce_done]

theorem countCloseChannel_bridgeUnguarded (sched : List CopyDir) :
    countCloseChannel (bridgeUnguarded forwardedCloser sched) = sched.length := by
  induction sched with
  | nil => rfl
  | cons d rest ih =>
    rw [show bridgeUnguarded forwardedCloser (d :: rest) =
        forwardedCloser ++ bridgeUnguarded forwardedCloser rest from rfl,
      countCloseChannel_append, ih]
    simp [forwardedCloser, countCloseChannel, Nat.add_comm]

theorem closeListener_not_mem_replyIf (n : Nat) (wr b : Bool) :
    Effect.closeListener n ∉ replyIf wr b := by
  cases wr <;> simp [replyIf]

theorem closeListener_not_mem_bridgeUnguarded (n : Nat) (sched : List CopyDir) :
    Effect.closeListener n ∉ bridgeUnguarded forwardedCloser sched := by
  induction sched with
  | nil => simp [bridgeUnguarded]
  | cons d rest ih =>
    rw [show bridgeUnguarded forwardedCloser (d :: rest) =
        forwardedCloser ++ bridgeUnguarded forwardedCloser rest from rfl]
    intro hmem
    rcases List.mem_append.1 hmem with h | h
    · simp [forwardedCloser] at h
    · exact ih h

theorem closeListener_not_mem_tcpipConnTask (n : Nat) (a : List Nat) (bp : Nat)
    (wr : Bool) (c : ConnInfo) :
    Effect.closeListener n ∉ tcpipConnTask a bp wr c := by
  cases hc : c.origin <;> cases ho : c.openOk <;>
    simp [tcpipConnTask, hc, ho, closeListener_not_mem_bridgeUnguarded,
      closeListener_not_mem_replyIf]

theorem closeListener_not_mem_tcpipAcceptLoop (n : Nat) (a : List Nat) (bp : Nat)
    (wr : Bool) (cs : List ConnInfo) :
    Effect.closeListener n ∉ tcpipAcceptLoop a bp wr cs := by
  induction cs with
  | nil => simp [tcpipAcceptLoop]
  | cons c rest ih =>
    simp [tcpipAcceptLoop, ih, closeListener_not_mem_tcpipConnTask n a bp wr c]

theorem closeListener_not_mem_streamlocalConnTask (n : Nat) (path : List Nat)
    (wr : Bool) (c : ConnInfo) :
    Effect.closeListener n ∉ streamlocalConnTask path wr c := by
  cases ho : c.openOk <;>
    simp [streamlocalConnTask, ho, closeListener_not_mem_bridgeUnguarded,
      closeListener_not_mem_replyIf]

theorem closeListener_not_mem_streamlocalAcceptLoop (n : Nat) (path : List Nat)
    (wr : Bool) (cs : List ConnInfo) :
    Effect.closeListener n ∉ streamlocalAcceptLoop path wr cs := by
  induction cs with
  | nil => simp [streamlocalAcceptLoop]
  | cons c rest ih =>
    simp [streamlocalAcceptLoop, ih, closeListener_not_mem_streamlocalConnTask n path wr c]

/-- C3 counterexample: a reverse forwarded-tcpip connection whose two copy
directions both terminate closes the channel twice, not exactly once: the
two goroutines at `server.go:405-414` run `conn.Close(); channel.Close()`
unconditionally, with no single-shot latch. -/
theorem forwarded_bridge_double_close_cex :
    countCloseChannel (tcpipConnTask [104] 1 true connBoth) = 2 ∧
    countCloseChannel (tcpipConnTask [104] 1 true connBoth) ≠ 1 := by
  decide

/-- C3 amended: the close-once guarantee holds for the `sync.Once`-guarded
bridges of `direct-tcpip` and `direct-streamlocal` (one close pair no
matter which direction terminates first), but the reverse forwarded-tcpip
and forwarded-streamlocal channel bridges run their close sequence once per
terminating copy direction — twice when both directions terminate. -/
theorem bridge_close_once_amended (env : Env) (extraT extraS ra sa path : List Nat)
    (rp sp : Nat)
    (hT : parseDirectTcpipMsg extraT = some (ra, rp, sa, sp))
    (hS : parseDirectStreamlocalMsg extraS = some path)
    (hacc : env.acceptOk = true)
    (hdT : env.dialOk "tcp" (joinHostPort ra rp) = true)
    (hdS : env.dialOk "unix" path = true)
    (hsched : env.sched ≠ []) :
    countCloseChannel (handleDirectTcpip extraT env) = 1 ∧
    countCloseChannel (handleDirectStreamlocal extraS env) = 1 ∧
    (∀ (a : List Nat) (bp : Nat) (wr : Bool) (c : ConnInfo), c.openOk = true →
      countCloseChannel (tcpipConnTask a bp wr c) = c.sched.length) ∧
    (∀ (p2 : List Nat) (wr : Bool) (c : ConnInfo), c.openOk = true →
      countCloseChannel (streamlocalConnTask p2 wr c) = c.sched.length) := by
  refine ⟨?_, ?_, ?_, ?_⟩
  · simp [handleDirectTcpip, hT, hacc, hdT, bridgeOnce_of_ne_nil _ _ hsched,
      directCloser, countCloseChannel]
  · simp [handleDirectStreamlocal, hS, hacc, hdS, bridgeOnce_of_ne_nil _ _ hsched,
      directCloser, countCloseChannel]
  · intro a bp wr c ho
    cases hc : c.origin <;>
      simp [tcpipConnTask, hc, ho, countCloseChannel_append, countCloseChannel,
        countCloseChannel_bridgeUnguarded]
  · intro p2 wr c ho
    simp [streamlocalConnTask, ho, countCloseChannel_append, countCloseChannel,
      countCloseChannel_bridgeUnguarded]

/-- Witness for C3's amended claim: direct bridges close once on a
two-termination schedule; the forwarded bridge of `connBoth` closes twice. -/
theorem bridge_close_once_amended_witness :
    countCloseChannel (handleDirectTcpip dtExtra envSched2) = 1 ∧
    countCloseChannel (handleDirectStreamlocal dslExtra envSched2) = 1 ∧
    countCloseChannel (tcpipConnTask [104] 1 true connBoth) = connBoth.sched.length ∧
    countCloseChannel (streamlocalConnTask [112] true connBoth) = connBoth.sched.length := by
  have h := bridge_close_once_amended envSched2 dtExtra dslExtra [104] [] [112] 1 0
    (by decide) (by decide) rfl rfl rfl (by decide)
  exact ⟨h.1, h.2.1, h.2.2.1 [104] 1 true connBoth rfl, h.2.2.2 [112] true connBoth rfl⟩

/-- C8 counterexample: re-registering the bound address `"h:1"` (already
mapped to listener 7) stores the new listener 8 but the handler's trace
never closes listener 7 — the claim's "the previous listener is closed"
fails. -/
theorem store_collision_no_close_cex :
    regLookup (handleTcpipForward true tfPayload envListen8 [(tfAddress, 7)]).2
      tfAddress = some 8 ∧
    Effect.closeListener 7 ∉
      (handleTcpipForward true tfPayload envListen8 [(tfAddress, 7)]).1 := by
  decide

/-- C8 amended: a store under a key that already has an entry overwrites
the entry, but the displaced listener is not closed — it is orphaned (no
`closeListener` effect appears anywhere in either forward handler's
trace). -/
theorem store_collision_overwrites_amended (env : Env) (wr : Bool)
    (pT pS addr path : List Nat) (port lnT lnS : Nat) (reg : Registry)
    (hpT : parseTcpipForwardMsg pT = some (addr, port))
    (hlT : env.listen "tcp" (joinHostPort addr port) = some lnT)
    (hpS : parseStreamlocalForwardMsg pS = some path)
    (hlS : env.listen "unix" path = some lnS) :
    regLookup (handleTcpipForward wr pT env reg).2 (joinHostPort addr port) =
      some lnT ∧
    (∀ n, Effect.closeListener n ∉ (handleTcpipForward wr pT env reg).1) ∧
    regLookup (handleStreamlocalForward wr pS env reg).2 path = some lnS ∧
    (∀ n, Effect.closeListener n ∉ (handleStreamlocalForward wr pS env reg).1) := by
  refine ⟨?_, ?_, ?_, ?_⟩
  · simp [handleTcpipForward, hpT, hlT, regStore, regLookup]
  · intro n
    simp [handleTcpipForward, hpT, hlT, closeListener_not_mem_replyIf,
      closeListener_not_mem_tcpipAcceptLoop]
  · simp [handleStreamlocalForward, hpS, hlS, regStore, regLookup]
  · intro n
    simp [handleStreamlocalForward, hpS, hlS, closeListener_not_mem_replyIf,
      closeListener_not_mem_streamlocalAcceptLoop]

/-- Witness for C8's amended claim at a concrete collision: registry
`[("h:1", 7), ("p", 9)]`, both binds succeeding with listener 8. -/
theorem store_collision_overwrites_amended_witness :
    regLookup (handleTcpipForward true tfPayload envListen8
      [(tfAddress, 7), ([112], 9)]).2 (joinHostPort [104] 1) = some 8 ∧
    Effect.closeListener 7 ∉
      (handleTcpipForward true tfPayload envListen8 [(tfAddress, 7), ([112], 9)]).1 ∧
    regLookup (handleStreamlocalForward true slPayload envListen8
      [(tfAddress, 7), ([112], 9)]).2 [112] = some 8 ∧
    Effect.closeListener 9 ∉
      (handleStreamlocalForward true slPayload envListen8 [(tfAddress, 7), ([112], 9)]).1 := by
  have h := store_collision_overwrites_amended envListen8 true tfPayload slPayload
    [104] [112] 1 8 8 [(tfAddress, 7), ([112], 9)] (by decide) rfl (by decide) rfl
  exact ⟨h.1, h.2.1 7, h.2.2.1, h.2.2.2 9⟩

/-- C1: permission gating.  For each of the six permission flags: with the
flag false, the gated operation is rejected with the documented code — a
`prohibited` channel rejection with a descriptive reason for the two direct
channel types, a false reply for the four gated requests — and its trace
contains no bind, dial or spawn; with the flag true, a valid payload and
cooperating OS oracles, the operation succeeds (channel accepted and
backend dialled, process spawned after reply true, sftp served after reply
true, listener bound and stored with reply true). -/
theorem permission_gating (s : Server) (env : Env) :
    (s.AllowDirectTcpip = false → ∀ extra reqs,
      handleChannel s "direct-tcpip" extra reqs env =
        [Effect.rejectChannel RejectCode.prohibited "direct-tcpip not allowed"] ∧
      noSideEffect (handleChannel s "direct-tcpip" extra reqs env) = true) ∧
    (s.AllowDirectTcpip = true → env.acceptOk = true →
      ∀ extra ra rp sa sp reqs, parseDirectTcpipMsg extra = some (ra, rp, sa, sp) →
      env.dialOk "tcp" (joinHostPort ra rp) = true →
      handleChannel s "direct-tcpip" extra reqs env =
        [Effect.acceptChannel, Effect.discardRequests,
         Effect.dial "tcp" (joinHostPort ra rp)] ++
          bridgeOnce directCloser env.sched false) ∧
    (s.AllowDirectStreamlocal = false → ∀ extra reqs,
      handleChannel s "direct-streamlocal@openssh.com" extra reqs env =
        [Effect.rejectChannel RejectCode.prohibited
          "direct-streamlocal (Unix domain socket) not allowed"] ∧
      noSideEffect (handleChannel s "direct-streamlocal@openssh.com" extra reqs env) = true) ∧
    (s.AllowDirectStreamlocal = true → env.acceptOk = true →
      ∀ extra path reqs, parseDirectStreamlocalMsg extra = some path →
      env.dialOk "unix" path = true →
      handleChannel s "direct-streamlocal@openssh.com" extra reqs env =
        [Effect.acceptChannel, Effect.discardRequests, Effect.dial "unix" path] ++
          bridgeOnce directCloser env.sched false) ∧
    (s.AllowExecute = false → ∀ wr p shf,
      sessionStep s env shf ⟨"exec", wr, p⟩ =
        ([Effect.log "execution not allowed (exec)"] ++ replyIf wr false, shf, Ctl.cont) ∧
      noSideEffect (sessionStep s env shf ⟨"exec", wr, p⟩).1 = true) ∧
    (s.AllowExecute = true → env.stdinPipeOk = true → env.stdoutPipeOk = true →
      env.stderrPipeOk = true → env.run = RunOutcome.success →
      ∀ wr p cmd c args shf, parseExecMsg p = some cmd →
      env.shellwords cmd = some (c :: args) →
      sessionStep s env shf ⟨"exec", wr, p⟩ =
        (replyIf wr true ++ [Effect.spawn (c :: args),
          Effect.sendRequest "exit-status" false (u32be 0), Effect.closeChannel],
         shf, Ctl.cont)) ∧
    (s.AllowSftp = false → ∀ wr p, 4 ≤ p.length → p.drop 4 = sftpBytes →
      handleSessionSubSystem s env ⟨"subsystem", wr, p⟩ =
        ([Effect.log "sftp not allowed"] ++ replyIf wr false, Ctl.cont) ∧
      noSideEffect (handleSessionSubSystem s env ⟨"subsystem", wr, p⟩).1 = true) ∧
    (s.AllowSftp = true → env.newSftpOk = true → ∀ wr p, 4 ≤ p.length →
      p.drop 4 = sftpBytes →
      handleSessionSubSystem s env ⟨"subsystem", wr, p⟩ =
        (replyIf wr true ++ [Effect.sftpServe], Ctl.cont)) ∧
    (s.AllowTcpipForward = false → ∀ wr p reg,
      globalRequestStep s env reg ⟨"tcpip-forward", wr, p⟩ =
        ([Effect.log "tcpip-forward not allowed"] ++ replyIf wr false, reg) ∧
      noSideEffect (globalRequestStep s env reg ⟨"tcpip-forward", wr, p⟩).1 = true) ∧
    (s.AllowTcpipForward = true → ∀ wr p addr port ln reg,
      parseTcpipForwardMsg p = some (addr, port) →
      env.listen "tcp" (joinHostPort addr port) = some ln →
      globalRequestStep s env reg ⟨"tcpip-forward", wr, p⟩ =
        ([Effect.bind "tcp" (joinHostPort addr port)] ++ replyIf wr true ++
          [Effect.spawnWatchdog ln] ++ tcpipAcceptLoop addr port wr env.conns,
         regStore reg (joinHostPort addr port) ln)) ∧
    (s.AllowStreamlocalForward = false → ∀ wr p reg,
      globalRequestStep s env reg ⟨"streamlocal-forward@openssh.com", wr, p⟩ =
        ([Effect.log "streamlocal-forward not allowed"] ++ replyIf wr false, reg) ∧
      noSideEffect (globalRequestStep s env reg ⟨"streamlocal-forward@openssh.com", wr, p⟩).1 = true) ∧
    (s.AllowStreamlocalForward = true → ∀ wr p path ln reg,
      parseStreamlocalForwardMsg p = some path →
      env.listen "unix" path = some ln →
      globalRequestStep s env reg ⟨"streamlocal-forward@openssh.com", wr, p⟩ =
        ([Effect.bind "unix" path] ++ replyIf wr true ++
          [Effect.spawnWatchdog ln] ++ streamlocalAcceptLoop path wr env.conns,
         regStore reg path ln)) := by
  refine ⟨?_, ?_, ?_, ?_, ?_, ?_, ?_, ?_, ?_, ?_, ?_, ?_⟩
  · intro h extra reqs
    have ht : handleChannel s "direct-tcpip" extra reqs env =
        [Effect.rejectChannel RejectCode.prohibited "direct-tcpip not allowed"] := by
      simp [handleChannel, h]
    exact ⟨ht, by rw [ht]; rfl⟩
  · intro h hacc extra ra rp sa sp reqs hp hd
    simp [handleChannel, handleDirectTcpip, h, hacc, hp, hd]
  · intro h extra reqs
    have ht : handleChannel s "direct-streamlocal@openssh.com" extra reqs env =
        [Effect.rejectChannel RejectCode.prohibited
          "direct-streamlocal (Unix domain socket) not allowed"] := by
      simp [handleChannel, h]
    exact ⟨ht, by rw [ht]; rfl⟩
  · intro h hacc extra path reqs hp hd
    simp [handleChannel, handleDirectStreamlocal, h, hacc, hp, hd]
  · intro h wr p shf
    have ht : sessionStep s env shf ⟨"exec", wr, p⟩ =
        ([Effect.log "execution not allowed (exec)"] ++ replyIf wr false, shf, Ctl.cont) := by
      simp [sessionStep, h]
    exact ⟨ht, by rw [ht]; cases wr <;> rfl⟩
  · intro h h1 h2 h3 hrun wr p cmd c args shf hp hw
    simp [sessionStep, handleExecRequest, h, h1, h2, h3, hrun, hp, hw, runSpawns,
      uint32OfInt, exitCodeOf]
  · intro h wr p hlen hdrop
    have ht : handleSessionSubSystem s env ⟨"subsystem", wr, p⟩ =
        ([Effect.log "sftp not allowed"] ++ replyIf wr false, Ctl.cont) := by
      simp [handleSessionSubSystem, h, hdrop, Nat.not_lt.mpr hlen]
    exact ⟨ht, by rw [ht]; cases wr <;> rfl⟩
  · intro h hsftp wr p hlen hdrop
    simp [handleSessionSubSystem, h, hsftp, hdrop, Nat.not_lt.mpr hlen]
  · intro h wr p reg
    have ht : globalRequestStep s env reg ⟨"tcpip-forward", wr, p⟩ =
        ([Effect.log "tcpip-forward not allowed"] ++ replyIf wr false, reg) := by
      simp [globalRequestStep, h]
    exact ⟨ht, by rw [ht]; cases wr <;> rfl⟩
  · intro h wr p addr port ln reg hp hl
    simp [globalRequestStep, handleTcpipForward, h, hp, hl]
  · intro h wr p reg
    have ht : globalRequestStep s env reg ⟨"streamlocal-forward@openssh.com", wr, p⟩ =
        ([Effect.log "streamlocal-forward not allowed"] ++ replyIf wr false, reg) := by
      simp [globalRequestStep, h]
    exact ⟨ht, by rw [ht]; cases wr <;> rfl⟩
  · intro h wr p path ln reg hp hl
    simp [globalRequestStep, handleStreamlocalForward, h, hp, hl]

/-- Witness for C1: all twelve gating conjuncts at concrete servers,
payloads and oracles — `serverNone` for the deny cases, `serverAll` with
`envOk` for the success cases. -/
theorem permission_gating_witness :
    handleChannel serverNone "direct-tcpip" dtExtra [] envOk =
      [Effect.rejectChannel RejectCode.prohibited "direct-tcpip not allowed"] ∧
    handleChannel serverAll "direct-tcpip" dtExtra [] envOk =
      [Effect.acceptChannel, Effect.discardRequests,
       Effect.dial "tcp" (joinHostPort [104] 1)] ++
        bridgeOnce directCloser envOk.sched false ∧
    handleChannel serverNone "direct-streamlocal@openssh.com" dslExtra [] envOk =
      [Effect.rejectChannel RejectCode.prohibited
        "direct-streamlocal (Unix domain socket) not allowed"] ∧
    handleChannel serverAll "direct-streamlocal@openssh.com" dslExtra [] envOk =
      [Effect.acceptChannel, Effect.discardRequests, Effect.dial "unix" [112]] ++
        bridgeOnce directCloser envOk.sched false ∧
    sessionStep serverNone envOk none ⟨"exec", true, execPayloadA⟩ =
      ([Effect.log "execution not allowed (exec)"] ++ replyIf true false, none, Ctl.cont) ∧
    sessionStep serverAll envOk none ⟨"exec", true, execPayloadA⟩ =
      (replyIf true true ++ [Effect.spawn ([97] :: []),
        Effect.sendRequest "exit-status" false (u32be 0), Effect.closeChannel],
       none, Ctl.cont) ∧
    handleSessionSubSystem serverNone envOk ⟨"subsystem", true, subsysSftp⟩ =
      ([Effect.log "sftp not allowed"] ++ replyIf true false, Ctl.cont) ∧
    handleSessionSubSystem serverAll envOk ⟨"subsystem", true, subsysSftp⟩ =
      (replyIf true true ++ [Effect.sftpServe], Ctl.cont) ∧
    globalRequestStep serverNone envOk [] ⟨"tcpip-forward", true, tfPayload⟩ =
      ([Effect.log "tcpip-forward not allowed"] ++ replyIf true false, []) ∧
    globalRequestStep serverAll envOk [] ⟨"tcpip-forward", true, tfPayload⟩ =
      ([Effect.bind "tcp" (joinHostPort [104] 1)] ++ replyIf true true ++
        [Effect.spawnWatchdog 5] ++ tcpipAcceptLoop [104] 1 true envOk.conns,
       regStore [] (joinHostPort [104] 1) 5) ∧
    globalRequestStep serverNone envOk [] ⟨"streamlocal-forward@openssh.com", true, slPayload⟩ =
      ([Effect.log "streamlocal-forward not allowed"] ++ replyIf true false, []) ∧
    globalRequestStep serverAll envOk [] ⟨"streamlocal-forward@openssh.com", true, slPayload⟩ =
      ([Effect.bind "unix" [112]] ++ replyIf true true ++
        [Effect.spawnWatchdog 5] ++ streamlocalAcceptLoop [112] true envOk.conns,
       regStore [] [112] 5) := by
  have hN := permission_gating serverNone envOk
  have hA := permission_gating serverAll envOk
  exact ⟨(hN.1 rfl dtExtra []).1,
    hA.2.1 rfl rfl dtExtra [104] 1 [] 0 [] (by decide) rfl,
    (hN.2.2.1 rfl dslExtra []).1,
    hA.2.2.2.1 rfl rfl dslExtra [112] [] (by decide) rfl,
    (hN.2.2.2.2.1 rfl true execPayloadA none).1,
    hA.2.2.2.2.2.1 rfl rfl rfl rfl rfl true execPayloadA [97] [97] [] none
      (by decide) rfl,
    (hN.2.2.2.2.2.2.1 rfl true subsysSftp (by decide) (by decide)).1,
    hA.2.2.2.2.2.2.2.1 rfl rfl true subsysSftp (by decide) (by decide),
    (hN.2.2.2.2.2.2.2.2.1 rfl true tfPayload []).1,
    hA.2.2.2.2.2.2.2.2.2.1 rfl true tfPayload [104] 1 5 [] (by decide) rfl,
    (hN.2.2.2.2.2.2.2.2.2.2.1 rfl true slPayload []).1,
    hA.2.2.2.2.2.2.2.2.2.2.2 rfl true slPayload [112] 5 [] (by decide) rfl⟩
